import Mathlib

/-!
Shallow embedding of the client-side request/reply transport and the
payload-flattening engine of `src/lib/lttng-ctl/lttng-ctl.c`.

The embedding models the two request paths
(`lttng_ctl_ask_sessiond_fds_varlen` and `lttng_ctl_ask_sessiond_payload`),
the optional-section receiver (`recv_sessiond_optional_data`), the
connection bookkeeping (`disconnect_sessiond`), the stop-tracing wait loop
(`_lttng_stop_tracing`), the two-pass flattening of `lttng_list_events`,
the modulo check of `lttng_list_sessions` / `lttng_list_channels`, and the
string-copy helper `lttng_ctl_copy_string`.

Socket and allocator outcomes are supplied by an explicit environment
record: each field prescribes the result of the corresponding system
interaction of one call, so the control flow of the C functions can be
replayed deterministically.
-/

namespace LttngCtl

/-- Modelled from the spec: the numeric values of the public error enum
live in `lttng-error.h`, which is not part of the sources given; the
development relies only on the codes being positive and pairwise
distinct, matching the spec's "small closed set of error conditions". -/
def LTTNG_OK : Nat := 10

/-- Generic error, used by the listing operations on a misaligned reply. -/
def LTTNG_ERR_UNK : Nat := 11

/-- Fatal transport error (mid-exchange I/O failure). -/
def LTTNG_ERR_FATAL : Nat := 21

/-- No session daemon reachable (failed connect). -/
def LTTNG_ERR_NO_SESSIOND : Nat := 22

/-- Invalid caller-supplied argument. -/
def LTTNG_ERR_INVALID : Nat := 68

/-- Allocation failure. -/
def LTTNG_ERR_NOMEM : Nat := 69

/-- Stop requested on a session that is already stopped. -/
def LTTNG_ERR_TRACE_ALREADY_STOPPED : Nat := 70

/-- Record count of a listing reply exceeds `INT_MAX`. -/
def LTTNG_ERR_OVERFLOW : Nat := 71

/-- Malformed serialized userspace probe location. -/
def LTTNG_ERR_PROBE_LOCATION_INVAL : Nat := 72

/-- Reply too short to contain the structures it must carry. -/
def LTTNG_ERR_INVALID_PROTOCOL : Nat := 73

/-- `errno` value returned (negated) by `recv_sessiond_optional_data` on a
failed allocation. -/
def ENOMEM : Nat := 12

/-- `INT_MAX` of the platform's 32-bit `int`. -/
def INT_MAX : Nat := 2 ^ 31 - 1

/-- The global connection state of the library: `static int
sessiond_socket = -1` and `static int connected`. -/
structure ConnState where
  sessiondSocket : Int
  connected : Bool
deriving Repr, DecidableEq

/-- State at library load: no socket, not connected. -/
def ConnState.initial : ConnState := ⟨-1, false⟩

/-- `reset_global_sessiond_connection_state`: forget the socket and clear
the connected flag. -/
def reset_global_sessiond_connection_state (_st : ConnState) : ConnState :=
  ⟨-1, false⟩

/-- `disconnect_sessiond`: when connected, close the socket and reset the
global connection state; otherwise leave the state untouched. -/
def disconnect_sessiond (st : ConnState) : ConnState :=
  if st.connected then reset_global_sessiond_connection_state st else st

/-- Fixed reply header `struct lttcomm_lttng_msg`: result code, length of
the command-header section, length of the data section and number of
transferred descriptors. -/
structure LlmHeader where
  ret_code : Nat
  cmd_header_size : Nat
  data_size : Nat
  fd_count : Nat
deriving Repr, DecidableEq

/-- Outcomes of the system interactions performed by one request: the
result of `connect`, of each `send`, of each `recv` and of the
allocations.  `connectResult ≥ 0` is the socket returned by
`connect_sessiond`; a negative value is a failed connect.  A `false`
send/recv flag makes the corresponding socket call fail.  `header` is the
reply header the daemon sends. -/
structure TransportEnv where
  connectResult : Int
  sendMsgOk : Bool
  sendVarlenOk : Bool
  sendFdsOk : Bool
  recvHeaderOk : Bool
  header : LlmHeader
  recvCmdHeaderOk : Bool
  recvDataOk : Bool
  recvFdsOk : Bool
  mallocOk : Bool
deriving Repr, DecidableEq

/-- What a call wrote through a caller-supplied output pointer:
left it untouched, stored a null pointer, or stored a freshly allocated
buffer of the given size (ownership transferred to the caller). -/
inductive BufWrite
  | untouched
  | setNull
  | setOwned (size : Nat)
deriving Repr, DecidableEq

/-- `send_session_msg`: refuse when not connected, otherwise the creds
send either transfers the fixed command record or fails fatally. -/
def send_session_msg (ok : Bool) (st : ConnState) (msgSize : Nat) : Int :=
  if !st.connected then -(LTTNG_ERR_NO_SESSIOND : Int)
  else if ok then (msgSize : Int)
  else -(LTTNG_ERR_FATAL : Int)

/-- `send_session_varlen`: refuse when not connected; a null or empty
variable-data argument sends nothing and reports 0. -/
def send_session_varlen (ok : Bool) (st : ConnState) (hasData : Bool)
    (len : Nat) : Int :=
  if !st.connected then -(LTTNG_ERR_NO_SESSIOND : Int)
  else if !hasData || len = 0 then 0
  else if ok then (len : Int)
  else -(LTTNG_ERR_FATAL : Int)

/-- `send_session_fds`: refuse when not connected; a null or empty
descriptor array sends nothing and reports 0. -/
def send_session_fds (ok : Bool) (st : ConnState) (hasFds : Bool)
    (nbFd : Nat) : Int :=
  if !st.connected then -(LTTNG_ERR_NO_SESSIOND : Int)
  else if !hasFds || nbFd = 0 then 0
  else if ok then (nbFd : Int)
  else -(LTTNG_ERR_FATAL : Int)

/-- `recv_data_sessiond`: refuse when not connected, otherwise the socket
read either fills the buffer completely or fails fatally. -/
def recv_data_sessiond (ok : Bool) (st : ConnState) (len : Nat) : Int :=
  if !st.connected then -(LTTNG_ERR_NO_SESSIOND : Int)
  else if ok then (len : Int)
  else -(LTTNG_ERR_FATAL : Int)

/-- Result of `recv_sessiond_optional_data`: the returned code, what was
written through `*user_buf` and `*user_len`, and whether a socket read
was attempted. -/
structure OptRecvOutcome where
  ret : Int
  bufWrite : BufWrite
  lenWrite : Option Nat
  didRecv : Bool
deriving Repr, DecidableEq

/-- `recv_sessiond_optional_data`: receive a `len`-byte optional section
into a fresh allocation and hand it to the caller.  With `len = 0` the
caller's cells are cleared and nothing is read.  On any failure the
temporary buffer is freed and the caller's cells are left untouched. -/
def recv_sessiond_optional_data (recvOk mallocOk : Bool) (st : ConnState)
    (len : Nat) (hasUserBuf hasUserLen : Bool) : OptRecvOutcome :=
  if len ≠ 0 then
    if !hasUserLen then ⟨-(LTTNG_ERR_INVALID : Int), .untouched, none, false⟩
    else if !mallocOk then ⟨-(ENOMEM : Int), .untouched, none, false⟩
    else
      let r := recv_data_sessiond recvOk st len
      if r < 0 then ⟨r, .untouched, none, st.connected⟩
      else if !hasUserBuf then
        ⟨-(LTTNG_ERR_INVALID : Int), .untouched, none, st.connected⟩
      else ⟨r, .setOwned len, some len, st.connected⟩
  else
    ⟨0, if hasUserBuf then .setNull else .untouched,
      if hasUserLen then some 0 else none, false⟩

/-- Observable outcome of one fixed-header-path request: return value,
the global connection state after the call, what was written through the
caller's command-header and payload output pointers, the value stored in
`*user_cmd_header_len`, how many connect attempts were made and how many
section reads happened after the reply header. -/
structure AskOutcome where
  ret : Int
  st : ConnState
  cmdHeader : BufWrite
  cmdHeaderLen : Option Nat
  payload : BufWrite
  connects : Nat
  sectionRecvs : Nat
deriving Repr, DecidableEq

/-- Size of the fixed reply header `struct lttcomm_lttng_msg`; the exact
value is immaterial to every property proved here. -/
def szLlm : Nat := 28

/-- The send/receive sequence of `lttng_ctl_ask_sessiond_fds_varlen`
after a successful connect: produces the result code, what was written
through `*user_cmd_header_buf` and `*user_cmd_header_len`, what was
written through `*user_payload_buf`, and the number of section reads
performed after the reply header. -/
def askFdsVarlenBody (env : TransportEnv) (st : ConnState) (msgSize : Nat)
    (hasFds : Bool) (nbFd : Nat) (hasVardata : Bool) (vardataLen : Nat)
    (hasPayloadBuf hasCmdHeaderBuf hasCmdHeaderLen : Bool) :
    Int × BufWrite × Option Nat × BufWrite × Nat :=
  let r1 := send_session_msg env.sendMsgOk st msgSize
  if r1 < 0 then (r1, .untouched, none, .untouched, 0)
  else
    let r2 := send_session_varlen env.sendVarlenOk st hasVardata vardataLen
    if r2 < 0 then (r2, .untouched, none, .untouched, 0)
    else
      let r3 := send_session_fds env.sendFdsOk st hasFds nbFd
      if r3 < 0 then (r3, .untouched, none, .untouched, 0)
      else
        let r4 := recv_data_sessiond env.recvHeaderOk st szLlm
        if r4 < 0 then (r4, .untouched, none, .untouched, 0)
        else if env.header.ret_code ≠ LTTNG_OK then
          (-(env.header.ret_code : Int), .untouched, none, .untouched, 0)
        else
          let o1 := recv_sessiond_optional_data env.recvCmdHeaderOk
              env.mallocOk st env.header.cmd_header_size hasCmdHeaderBuf
              hasCmdHeaderLen
          let n1 := if o1.didRecv then 1 else 0
          if o1.ret < 0 then (o1.ret, o1.bufWrite, o1.lenWrite, .untouched, n1)
          else
            let o2 := recv_sessiond_optional_data env.recvDataOk
                env.mallocOk st env.header.data_size hasPayloadBuf true
            let n2 := n1 + (if o2.didRecv then 1 else 0)
            if o2.ret < 0 then
              (o2.ret, o1.bufWrite, o1.lenWrite, o2.bufWrite, n2)
            else
              ((env.header.data_size : Int), o1.bufWrite, o1.lenWrite,
                o2.bufWrite, n2)

/-- Body of `lttng_ctl_ask_sessiond_fds_varlen` up to (not including) the
final `disconnect_sessiond` of its `end:` label.  `st0` is the global
connection state when the call starts. -/
def askFdsVarlenCore (env : TransportEnv) (st0 : ConnState) (msgSize : Nat)
    (hasFds : Bool) (nbFd : Nat) (hasVardata : Bool) (vardataLen : Nat)
    (hasPayloadBuf hasCmdHeaderBuf hasCmdHeaderLen : Bool) : AskOutcome :=
  if env.connectResult < 0 then
    ⟨-(LTTNG_ERR_NO_SESSIOND : Int), st0, .untouched, none, .untouched, 1, 0⟩
  else
    let st : ConnState := ⟨env.connectResult, true⟩
    let b := askFdsVarlenBody env st msgSize hasFds nbFd hasVardata
        vardataLen hasPayloadBuf hasCmdHeaderBuf hasCmdHeaderLen
    ⟨b.1, st, b.2.1, b.2.2.1, b.2.2.2.1, 1, b.2.2.2.2⟩

/-- `lttng_ctl_ask_sessiond_fds_varlen`: run the request body, then
always disconnect before returning (the `end:` label). -/
def lttng_ctl_ask_sessiond_fds_varlen (env : TransportEnv) (st0 : ConnState)
    (msgSize : Nat) (hasFds : Bool) (nbFd : Nat) (hasVardata : Bool)
    (vardataLen : Nat)
    (hasPayloadBuf hasCmdHeaderBuf hasCmdHeaderLen : Bool) : AskOutcome :=
  let o := askFdsVarlenCore env st0 msgSize hasFds nbFd hasVardata vardataLen
      hasPayloadBuf hasCmdHeaderBuf hasCmdHeaderLen
  { o with st := disconnect_sessiond o.st }

/-- `recv_payload_sessiond`: grow the reply buffer by `len` bytes, then
read into the newly grown tail.  A failed growth reports `-LTTNG_ERR_NOMEM`
and leaves the buffer unchanged; a failed read leaves the grown size. -/
def recv_payload_sessiond (recvOk mallocOk : Bool) (st : ConnState)
    (size len : Nat) : Int × Nat :=
  if !mallocOk then (-(LTTNG_ERR_NOMEM : Int), size)
  else (recv_data_sessiond recvOk st len, size + len)

/-- Observable outcome of one payload-path request: return value, global
connection state after the call, final size of the caller's reply payload
buffer, number of descriptors stored in the reply payload, and number of
section reads performed after the reply header. -/
structure PayloadAskOutcome where
  ret : Int
  st : ConnState
  replySize : Nat
  replyFdCount : Nat
  sectionRecvs : Nat
deriving Repr, DecidableEq

/-- The send/receive sequence of `lttng_ctl_ask_sessiond_payload` after
a successful connect: produces the result code, the final size of the
caller's reply payload buffer, the number of descriptors stored in the
reply payload, and the number of section reads performed after the reply
header. -/
def askPayloadBody (env : TransportEnv) (st : ConnState)
    (msgFdCount : Nat) : Int × Nat × Nat × Nat :=
  if !env.sendMsgOk then (-(LTTNG_ERR_FATAL : Int), 0, 0, 0)
  else if msgFdCount > 0 && !env.sendFdsOk then
    (-(LTTNG_ERR_FATAL : Int), 0, 0, 0)
  else
    let p1 := recv_payload_sessiond env.recvHeaderOk env.mallocOk st 0 szLlm
    if p1.1 < 0 then (p1.1, p1.2, 0, 0)
    else if env.header.ret_code ≠ LTTNG_OK then
      (-(env.header.ret_code : Int), p1.2, 0, 0)
    else
      let p2 :=
        if env.header.cmd_header_size > 0 then
          recv_payload_sessiond env.recvCmdHeaderOk env.mallocOk st p1.2
            env.header.cmd_header_size
        else ((0 : Int), p1.2)
      let n2 := if env.header.cmd_header_size > 0 then 1 else 0
      if p2.1 < 0 then (p2.1, p2.2, 0, n2)
      else
        let p3 :=
          if env.header.data_size > 0 then
            recv_payload_sessiond env.recvDataOk env.mallocOk st p2.2
              env.header.data_size
          else ((0 : Int), p2.2)
        let n3 := n2 + (if env.header.data_size > 0 then 1 else 0)
        if p3.1 < 0 then (p3.1, p3.2, 0, n3)
        else
          let n4 := n3 + (if env.header.fd_count > 0 then 1 else 0)
          if env.header.fd_count > 0 && !env.recvFdsOk then
            (-(LTTNG_ERR_FATAL : Int), p3.2, 0, n4)
          else
            let fds := if env.header.fd_count > 0 then env.header.fd_count
                else 0
            -- Strip the leading reply-header bytes (memmove + shrink).
            let stripped := p3.2 - szLlm
            ((stripped : Int), stripped, fds, n4)

/-- Body of `lttng_ctl_ask_sessiond_payload` up to (not including) the
final `disconnect_sessiond`.  The caller's `reply` payload is empty on
entry (asserted by the C code). -/
def askPayloadCore (env : TransportEnv) (st0 : ConnState) (_msgSize : Nat)
    (msgFdCount : Nat) : PayloadAskOutcome :=
  if env.connectResult < 0 then
    ⟨-(LTTNG_ERR_NO_SESSIOND : Int), st0, 0, 0, 0⟩
  else
    let st : ConnState := ⟨env.connectResult, true⟩
    let b := askPayloadBody env st msgFdCount
    ⟨b.1, st, b.2.1, b.2.2.1, b.2.2.2⟩

/-- `lttng_ctl_ask_sessiond_payload`: run the request body, then always
disconnect before returning. -/
def lttng_ctl_ask_sessiond_payload (env : TransportEnv) (st0 : ConnState)
    (msgSize : Nat) (msgFdCount : Nat) : PayloadAskOutcome :=
  let o := askPayloadCore env st0 msgSize msgFdCount
  { o with st := disconnect_sessiond o.st }

/-! ### Command wrappers -/

/-- Modelled from the spec: `lttng_ctl_ask_sessiond` lives in
`lttng-ctl-helper.h`, which is not part of the given sources; per the
spec, the ~40 command wrappers "only populate a command record and call
into the core" — this wrapper forwards to the fixed-header path with no
descriptors, no variable data and no command-header output pointers. -/
def lttng_ctl_ask_sessiond (env : TransportEnv) (st0 : ConnState)
    (msgSize : Nat) (hasPayloadBuf : Bool) : AskOutcome :=
  lttng_ctl_ask_sessiond_fds_varlen env st0 msgSize false 0 false 0
    hasPayloadBuf false false

/-- Modelled from the spec: `lttng_ctl_ask_sessiond_varlen_no_cmd_header`
(also from `lttng-ctl-helper.h`) forwards to the fixed-header path with
variable data but no descriptors and no command-header output pointers. -/
def lttng_ctl_ask_sessiond_varlen_no_cmd_header (env : TransportEnv)
    (st0 : ConnState) (msgSize : Nat) (hasVardata : Bool) (vardataLen : Nat)
    (hasPayloadBuf : Bool) : AskOutcome :=
  lttng_ctl_ask_sessiond_fds_varlen env st0 msgSize false 0 hasVardata
    vardataLen hasPayloadBuf false false

/-- Outcome propagated to the caller of a command wrapper that performs
local validation before any I/O: the returned code together with the
transport activity that took place during the call. -/
structure WrapperOutcome where
  ret : Int
  st : ConnState
  connects : Nat
  sectionRecvs : Nat
deriving Repr, DecidableEq

/-- Size of `struct lttcomm_session_msg`; immaterial to the properties. -/
def szLsm : Nat := 512

/-- `lttng_start_tracing`: a null session name fails locally with
`-LTTNG_ERR_INVALID` before anything else; otherwise the command record
is populated and handed to `lttng_ctl_ask_sessiond`. -/
def lttng_start_tracing (env : TransportEnv) (st0 : ConnState)
    (session_name : Option (List Nat)) : WrapperOutcome :=
  match session_name with
  | none => ⟨-(LTTNG_ERR_INVALID : Int), st0, 0, 0⟩
  | some _ =>
    let o := lttng_ctl_ask_sessiond env st0 szLsm false
    ⟨o.ret, o.st, o.connects, o.sectionRecvs⟩

/-- The caller-relevant fields of `struct lttng_event_context`: whether
it is an application context and, if so, its provider and context
names. -/
structure EventContextModel where
  isAppCtx : Bool
  providerName : Option (List Nat)
  ctxName : Option (List Nat)
deriving Repr, DecidableEq

/-- `lttng_add_context`: a null handle or context fails locally with
`-LTTNG_ERR_INVALID`; an application context with a missing or empty
provider/context name also fails locally; otherwise the serialized names
travel as variable data via
`lttng_ctl_ask_sessiond_varlen_no_cmd_header`. -/
def lttng_add_context (env : TransportEnv) (st0 : ConnState)
    (handle : Option Unit) (ctx : Option EventContextModel) :
    WrapperOutcome :=
  match handle, ctx with
  | some _, some c =>
    if c.isAppCtx then
      match c.providerName, c.ctxName with
      | some p, some n =>
        if p.length = 0 then ⟨-(LTTNG_ERR_INVALID : Int), st0, 0, 0⟩
        else if n.length = 0 then ⟨-(LTTNG_ERR_INVALID : Int), st0, 0, 0⟩
        else if !env.mallocOk then ⟨-(LTTNG_ERR_NOMEM : Int), st0, 0, 0⟩
        else
          let o := lttng_ctl_ask_sessiond_varlen_no_cmd_header env st0 szLsm
              true (p.length + n.length) false
          ⟨o.ret, o.st, o.connects, o.sectionRecvs⟩
      | _, _ => ⟨-(LTTNG_ERR_INVALID : Int), st0, 0, 0⟩
    else
      let o := lttng_ctl_ask_sessiond_varlen_no_cmd_header env st0 szLsm
          false 0 false
      ⟨o.ret, o.st, o.connects, o.sectionRecvs⟩
  | _, _ => ⟨-(LTTNG_ERR_INVALID : Int), st0, 0, 0⟩

/-! ### Stop-tracing wait loop -/

/-- Result of `_lttng_stop_tracing`: returned code, number of calls made
to `lttng_data_pending` and number of `usleep` intervals slept. -/
structure StopOutcome where
  ret : Int
  checks : Nat
  sleeps : Nat
deriving Repr, DecidableEq

/-- The `do { } while (data_ret != 0)` loop of `_lttng_stop_tracing`.
`pending` is the sequence of results the successive `lttng_data_pending`
calls produce; `stopRet` is the value `ret` holds when the loop is
entered.  A check result `< 0` is returned at once; a nonzero result
sleeps and retries; result 0 exits the loop, returning `stopRet`.
`none` means the supplied sequence ended while the loop would poll on. -/
def dataPendingLoop (stopRet : Int) : List Int → Option StopOutcome
  | [] => none
  | r :: rest =>
    if r < 0 then some ⟨r, 1, 0⟩
    else if r ≠ 0 then
      match dataPendingLoop stopRet rest with
      | none => none
      | some o => some ⟨o.ret, o.checks + 1, o.sleeps + 1⟩
    else some ⟨stopRet, 1, 0⟩

/-- `_lttng_stop_tracing`: a null session name fails locally; the stop
command's own result (`stopRet`, the value `lttng_ctl_ask_sessiond`
produced for the `LTTNG_STOP_TRACE` command) aborts the call when it is a
negative code other than `-LTTNG_ERR_TRACE_ALREADY_STOPPED`; without
`wait` the call returns it at once; with `wait` the data-pending loop
runs. -/
def lttng_stop_tracing_common (session_name : Option (List Nat))
    (stopRet : Int) (wait : Bool) (pending : List Int) :
    Option StopOutcome :=
  match session_name with
  | none => some ⟨-(LTTNG_ERR_INVALID : Int), 0, 0⟩
  | some _ =>
    if stopRet < 0 ∧ stopRet ≠ -(LTTNG_ERR_TRACE_ALREADY_STOPPED : Int) then
      some ⟨stopRet, 0, 0⟩
    else if !wait then some ⟨stopRet, 0, 0⟩
    else dataPendingLoop stopRet pending

/-- `lttng_stop_tracing`: stop and wait for data availability. -/
def lttng_stop_tracing (session_name : Option (List Nat)) (stopRet : Int)
    (pending : List Int) : Option StopOutcome :=
  lttng_stop_tracing_common session_name stopRet true pending

/-- `lttng_stop_tracing_no_wait`: stop without waiting. -/
def lttng_stop_tracing_no_wait (session_name : Option (List Nat))
    (stopRet : Int) (pending : List Int) : Option StopOutcome :=
  lttng_stop_tracing_common session_name stopRet false pending

/-! ### Flattening engine of `lttng_list_events` -/

/-- `ALIGN_TO(value, align)` for a power-of-two alignment: round `value`
up to the next multiple of `align`. -/
def ALIGN_TO (value align : Nat) : Nat := (value + align - 1) / align * align

/-- `LTTNG_SYMBOL_NAME_LEN`: width of one exclusion-name table entry. -/
def LTTNG_SYMBOL_NAME_LEN : Nat := 256

/-- Wire form of one per-record extended block, as declared by its
`struct lttcomm_event_extended_header`: trailing filter-expression
length, number of exclusion names, and — when a serialized userspace
probe location is attached — whether its bytes parse back into a probe
object together with the size of that object's flattened form.
`probe = none` models `userspace_probe_location_len == 0`. -/
structure EventExtComm where
  filter_len : Nat
  nb_exclusions : Nat
  probe : Option (Bool × Nat)
deriving Repr, DecidableEq

/-- Sizes of the fixed structures the flattening engine copies; the
two-pass consistency holds for every choice, so they are parameters. -/
structure FlattenSizes where
  szEvent : Nat
  szEventExtended : Nat
  symLen : Nat
deriving Repr, DecidableEq

/-- One measure-pass iteration (first loop of `lttng_list_events`): add
the extended-info block, the filter bytes and the exclusion table, pad to
a 64-bit boundary, then add the flattened size of the probe location.
`none` when the probe bytes fail to parse (or to measure), which makes
the pass abort with `-LTTNG_ERR_PROBE_LOCATION_INVAL`. -/
def measureStep (s : FlattenSizes) (acc : Nat) (r : EventExtComm) :
    Option Nat :=
  match r.probe with
  | some (ok, flatSize) =>
    if !ok then none
    else some (ALIGN_TO (acc + s.szEventExtended + r.filter_len +
        r.nb_exclusions * s.symLen) 8 + flatSize)
  | none =>
    some (ALIGN_TO (acc + s.szEventExtended + r.filter_len +
        r.nb_exclusions * s.symLen) 8)

/-- Measure pass: fold `measureStep` over the records, starting from the
size of the fixed-record array (`storage_req = nb_events *
sizeof(struct lttng_event)`). -/
def measurePassFrom (s : FlattenSizes) (acc : Nat) :
    List EventExtComm → Option Nat
  | [] => some acc
  | r :: rest =>
    match measureStep s acc r with
    | none => none
    | some acc' => measurePassFrom s acc' rest

/-- Total size the measure pass computes for a listing reply. -/
def measurePass (s : FlattenSizes) (records : List EventExtComm) :
    Option Nat :=
  measurePassFrom s (records.length * s.szEvent) records

/-- One flatten-pass iteration (second loop of `lttng_list_events`):
insert the extended-info block, append the filter bytes when a filter is
present, append the exclusion table when exclusions are present, pad to a
64-bit boundary, then reconstruct the probe location and append its
flattened form.  The accumulator is `listing.size`. -/
def flattenStep (s : FlattenSizes) (acc : Nat) (r : EventExtComm) :
    Option Nat :=
  let acc := acc + s.szEventExtended
  let acc := if r.filter_len ≠ 0 then acc + r.filter_len else acc
  let acc := if r.nb_exclusions ≠ 0 then acc + r.nb_exclusions * s.symLen
    else acc
  let acc := ALIGN_TO acc 8
  match r.probe with
  | some (ok, flatSize) => if !ok then none else some (acc + flatSize)
  | none => some acc

/-- Flatten pass from a given buffer size. -/
def flattenPassFrom (s : FlattenSizes) (acc : Nat) :
    List EventExtComm → Option Nat
  | [] => some acc
  | r :: rest =>
    match flattenStep s acc r with
    | none => none
    | some acc' => flattenPassFrom s acc' rest

/-- Total number of bytes the flatten pass has written when it finishes:
the fixed-record array is appended first (`flat_events_view`), then the
per-record blocks. -/
def flattenPass (s : FlattenSizes) (records : List EventExtComm) :
    Option Nat :=
  flattenPassFrom s (records.length * s.szEvent) records

/-- The flattening portion of `lttng_list_events`, from the point where
`nb_events` has been read out of the command header: check the record
count against `INT_MAX`, measure, reserve (`allocOk` is the outcome of
`lttng_dynamic_buffer_set_capacity`), flatten, and return the record
count together with the final buffer size. -/
def lttng_list_events_flatten (s : FlattenSizes) (allocOk : Bool)
    (records : List EventExtComm) : Except Int (Nat × Nat) :=
  if records.length > INT_MAX then .error (-(LTTNG_ERR_OVERFLOW : Int))
  else
    match measurePass s records with
    | none => .error (-(LTTNG_ERR_PROBE_LOCATION_INVAL : Int))
    | some _storage_req =>
      if !allocOk then .error (-(LTTNG_ERR_NOMEM : Int))
      else
        match flattenPass s records with
        | none => .error (-(LTTNG_ERR_PROBE_LOCATION_INVAL : Int))
        | some size => .ok (records.length, size)

/-! ### Misaligned-reply check of the session/channel listings -/

/-- Tail of `lttng_list_sessions` after `lttng_ctl_ask_sessiond` returned
`askRet` and wrote (or not) the reply buffer: `askRet ≤ 0` is passed
through; a null buffer is `-LTTNG_ERR_FATAL`; a byte count that is not a
multiple of `sizeof(struct lttng_session) + sizeof(struct
lttng_session_extended)` frees the buffer, nulls the caller's output and
returns `-LTTNG_ERR_UNK`; otherwise the caller receives the buffer and
the record count.  The outcome records what was written through
`*out_sessions` and whether the received buffer was freed. -/
def lttng_list_sessions_tail (sessionSize : Nat) (askRet : Int)
    (bufValid : Bool) : Int × BufWrite × Bool :=
  if askRet ≤ 0 then (askRet, .untouched, false)
  else if !bufValid then (-(LTTNG_ERR_FATAL : Int), .untouched, false)
  else if askRet.toNat % sessionSize ≠ 0 then
    (-(LTTNG_ERR_UNK : Int), .setNull, true)
  else ((askRet.toNat / sessionSize : Nat), .setOwned askRet.toNat, false)

/-- Tail of `lttng_list_channels` after `lttng_ctl_ask_sessiond` returned
`askRet` into `*channels`: a negative count is passed through; a byte
count that is not a multiple of `sizeof(struct lttng_channel) +
sizeof(struct lttng_channel_extended)` frees `*channels`, nulls it and
returns `-LTTNG_ERR_UNK`; otherwise the extended-info pointers are set and
the record count returned. -/
def lttng_list_channels_tail (channelSize : Nat) (askRet : Int) :
    Int × BufWrite × Bool :=
  if askRet < 0 then (askRet, .untouched, false)
  else if askRet.toNat % channelSize ≠ 0 then
    (-(LTTNG_ERR_UNK : Int), .setNull, true)
  else ((askRet.toNat / channelSize : Nat), .setOwned askRet.toNat, false)

/-! ### String-copy helper -/

/-- `strncpy(dst, src, n)` for a source without interior NUL bytes
(`src` lists exactly the characters before the source's terminator):
the first `n` bytes of `dst` become the first `min n src.length`
source characters padded with NUL bytes up to `n`; bytes past `n` are
untouched. -/
def strncpyModel (dst src : List Nat) (n : Nat) : List Nat :=
  (src.take n ++ List.replicate (n - src.length) 0) ++ dst.drop n

/-- `lttng_ctl_copy_string`: with a non-null source, `strncpy` then force
`dst[len - 1] = '\0'`; with a null source, `dst[0] = '\0'`.  `dst` is the
destination buffer's contents (the destination pointer is non-null). -/
def lttng_ctl_copy_string (dst : List Nat) (src : Option (List Nat))
    (len : Nat) : List Nat :=
  match src with
  | some s => (strncpyModel dst s len).set (len - 1) 0
  | none => dst.set 0 0

/-- The C string a byte buffer holds: its bytes before the first NUL. -/
def cString (l : List Nat) : List Nat := l.takeWhile (· ≠ 0)

/-! ### Helper lemmas -/

/-- `disconnect_sessiond` always leaves the connected flag cleared. -/
theorem disconnect_sessiond_connected (st : ConnState) :
    (disconnect_sessiond st).connected = false := by
  cases h : st.connected <;>
    simp [disconnect_sessiond, reset_global_sessiond_connection_state, h]

/-- The state reached by the fixed-header request body is either the
entry state (failed connect) or the connected state. -/
theorem askFdsVarlenCore_st (env : TransportEnv) (st0 : ConnState)
    (msgSize : Nat) (hasFds : Bool) (nbFd : Nat) (hasVardata : Bool)
    (vardataLen : Nat) (hPB hCB hCL : Bool) :
    (askFdsVarlenCore env st0 msgSize hasFds nbFd hasVardata vardataLen
        hPB hCB hCL).st = st0 ∨
    (askFdsVarlenCore env st0 msgSize hasFds nbFd hasVardata vardataLen
        hPB hCB hCL).st = ⟨env.connectResult, true⟩ := by
  unfold askFdsVarlenCore
  split
  · exact Or.inl rfl
  · exact Or.inr rfl

/-- The state reached by the payload-path request body is either the
entry state (failed connect) or the connected state. -/
theorem askPayloadCore_st (env : TransportEnv) (st0 : ConnState)
    (msgSize msgFdCount : Nat) :
    (askPayloadCore env st0 msgSize msgFdCount).st = st0 ∨
    (askPayloadCore env st0 msgSize msgFdCount).st =
      ⟨env.connectResult, true⟩ := by
  unfold askPayloadCore
  split
  · exact Or.inl rfl
  · exact Or.inr rfl

/-- A successful creds send reports the full record size. -/
theorem send_session_msg_ok (st : ConnState) (msgSize : Nat)
    (h : st.connected = true) :
    send_session_msg true st msgSize = (msgSize : Int) := by
  simp [send_session_msg, h]

/-- A successful (or skipped) variable-data send never reports an
error. -/
theorem send_session_varlen_ok_nonneg (st : ConnState) (hasData : Bool)
    (len : Nat) (h : st.connected = true) :
    0 ≤ send_session_varlen true st hasData len := by
  unfold send_session_varlen
  rw [h]
  repeat' split <;> first | omega | simp_all

/-- A successful (or skipped) descriptor send never reports an error. -/
theorem send_session_fds_ok_nonneg (st : ConnState) (hasFds : Bool)
    (nbFd : Nat) (h : st.connected = true) :
    0 ≤ send_session_fds true st hasFds nbFd := by
  unfold send_session_fds
  rw [h]
  repeat' split <;> first | omega | simp_all

/-- A successful receive reports the requested length. -/
theorem recv_data_sessiond_ok (st : ConnState) (len : Nat)
    (h : st.connected = true) :
    recv_data_sessiond true st len = (len : Int) := by
  simp [recv_data_sessiond, h]

/-- The fixed-header body under a reply whose result code is not
`LTTNG_OK`: the negated code is returned, nothing is written through the
caller's pointers and no section is read. -/
theorem askFdsVarlenBody_gate (env : TransportEnv) (st : ConnState)
    (msgSize : Nat) (hasFds : Bool) (nbFd : Nat) (hasVardata : Bool)
    (vardataLen : Nat) (hPB hCB hCL : Bool) (hst : st.connected = true)
    (hsm : env.sendMsgOk = true) (hsv : env.sendVarlenOk = true)
    (hsf : env.sendFdsOk = true) (hrh : env.recvHeaderOk = true)
    (hrc : env.header.ret_code ≠ LTTNG_OK) :
    askFdsVarlenBody env st msgSize hasFds nbFd hasVardata vardataLen
      hPB hCB hCL =
      (-(env.header.ret_code : Int), .untouched, none, .untouched, 0) := by
  unfold askFdsVarlenBody
  rw [hsm, hsv, hsf, hrh]
  dsimp only
  rw [if_neg (not_lt.mpr (by rw [send_session_msg_ok st msgSize hst]; omega)),
    if_neg (not_lt.mpr (send_session_varlen_ok_nonneg st hasVardata
      vardataLen hst)),
    if_neg (not_lt.mpr (send_session_fds_ok_nonneg st hasFds nbFd hst)),
    if_neg (not_lt.mpr (by rw [recv_data_sessiond_ok st szLlm hst]; omega)),
    if_pos hrc]

/-- The payload body under a reply whose result code is not `LTTNG_OK`:
the negated code is returned, only the raw header bytes are in the reply
buffer, no descriptor is stored, and no section is read. -/
theorem askPayloadBody_gate (env : TransportEnv) (st : ConnState)
    (msgFdCount : Nat) (hst : st.connected = true)
    (hsm : env.sendMsgOk = true) (hsf : env.sendFdsOk = true)
    (hrh : env.recvHeaderOk = true) (hmo : env.mallocOk = true)
    (hrc : env.header.ret_code ≠ LTTNG_OK) :
    askPayloadBody env st msgFdCount =
      (-(env.header.ret_code : Int), szLlm, 0, 0) := by
  unfold askPayloadBody
  rw [hsm, hsf, hrh, hmo]
  dsimp only
  rw [if_neg (by decide : ¬((!true) = true)),
    if_neg (by simp : ¬((decide (msgFdCount > 0) && !true) = true))]
  unfold recv_payload_sessiond
  rw [if_neg (by decide : ¬((!true) = true))]
  dsimp only
  rw [recv_data_sessiond_ok st szLlm hst]
  rw [if_neg (not_lt.mpr (by omega)), if_pos hrc]
  simp

/-- A failed optional-section receive hands no buffer to the caller: the
temporary allocation is freed and `*user_buf` is left untouched. -/
theorem recv_sessiond_optional_data_fail (recvOk mallocOk : Bool)
    (st : ConnState) (len : Nat) (hub hul : Bool) :
    (recv_sessiond_optional_data recvOk mallocOk st len hub hul).ret < 0 →
    (recv_sessiond_optional_data recvOk mallocOk st len hub hul).bufWrite =
      .untouched := by
  unfold recv_sessiond_optional_data
  dsimp only
  repeat' split
  all_goals intro h
  all_goals dsimp only at h
  all_goals first | rfl | omega

/-- A fully successful optional-section receive hands the caller a fresh
buffer of the declared length. -/
theorem recv_sessiond_optional_data_ok (st : ConnState) (len : Nat)
    (hst : st.connected = true) (hlen : len ≠ 0) :
    recv_sessiond_optional_data true true st len true true =
      ⟨(len : Int), .setOwned len, some len, true⟩ := by
  have hnn : ¬((len : Int) < 0) := by omega
  simp [recv_sessiond_optional_data, recv_data_sessiond, hst, hlen, hnn]

/-- An optional-section receive whose socket read fails reports the
fatal transport error and writes nothing. -/
theorem recv_sessiond_optional_data_recv_fail (st : ConnState) (len : Nat)
    (hub : Bool) (hst : st.connected = true) (hlen : len ≠ 0) :
    recv_sessiond_optional_data false true st len hub true =
      ⟨-(LTTNG_ERR_FATAL : Int), .untouched, none, true⟩ := by
  have hneg : (-(LTTNG_ERR_FATAL : Int)) < 0 := by decide
  simp [recv_sessiond_optional_data, recv_data_sessiond, hst, hlen, hneg]

/-- When the fixed-header body fails, the payload output pointer was
never written. -/
theorem askFdsVarlenBody_fail_payload (env : TransportEnv)
    (st : ConnState) (msgSize : Nat) (hasFds : Bool) (nbFd : Nat)
    (hasVardata : Bool) (vardataLen : Nat) (hPB hCB hCL : Bool) :
    (askFdsVarlenBody env st msgSize hasFds nbFd hasVardata vardataLen
      hPB hCB hCL).1 < 0 →
    (askFdsVarlenBody env st msgSize hasFds nbFd hasVardata vardataLen
      hPB hCB hCL).2.2.2.1 = .untouched := by
  unfold askFdsVarlenBody
  dsimp only
  repeat' split
  all_goals intro h
  all_goals
    first
      | rfl
      | omega
      | exact recv_sessiond_optional_data_fail env.recvDataOk env.mallocOk
          st env.header.data_size hPB true h

/-- When the payload body fails, no descriptor has been recorded in the
caller's reply payload. -/
theorem askPayloadBody_fail_fds (env : TransportEnv) (st : ConnState)
    (msgFdCount : Nat) :
    (askPayloadBody env st msgFdCount).1 < 0 →
    (askPayloadBody env st msgFdCount).2.2.1 = 0 := by
  unfold askPayloadBody
  lift_lets
  extract_lets p1 p2 n2 p3 n3 n4 fds stripped
  repeat' split
  all_goals intro h
  all_goals dsimp only at h
  all_goals first | rfl | omega

/-- `takeWhile` keeps a NUL-free prefix and stops at the NUL that heads
the rest. -/
theorem cString_append_zero (l₁ l₂ : List Nat) (h1 : ∀ x ∈ l₁, x ≠ 0)
    (h2 : l₂.head? = some 0) : cString (l₁ ++ l₂) = l₁ := by
  induction l₁ with
  | nil =>
    cases l₂ with
    | nil => simp at h2
    | cons b t =>
      simp only [List.head?_cons, Option.some_inj] at h2
      subst h2
      simp [cString]
  | cons a l ih =>
    have ha : a ≠ 0 := h1 a (List.mem_cons_self a l)
    simp only [List.cons_append, cString, List.takeWhile_cons]
    rw [if_pos (by simpa using ha)]
    have htail := ih fun x hx => h1 x (List.mem_cons_of_mem a hx)
    simpa [cString] using htail

/-- Closed form of `lttng_ctl_copy_string` with a non-null, NUL-free
source: the first `len - 1` destination bytes become the NUL-padded
source prefix, byte `len - 1` is the forced terminator, and bytes from
`len` on are untouched. -/
theorem lttng_ctl_copy_string_eq (dst s : List Nat) (len : Nat)
    (hlen : 1 ≤ len) (hdst : len ≤ dst.length) :
    lttng_ctl_copy_string dst (some s) len =
      (s.take (len - 1) ++ List.replicate (len - 1 - s.length) 0) ++
        0 :: dst.drop len := by
  unfold lttng_ctl_copy_string strncpyModel
  dsimp only
  have hA : (s.take len ++ List.replicate (len - s.length) 0).length =
      len := by
    simp only [List.length_append, List.length_take, List.length_replicate]
    omega
  have hlt : len - 1 <
      ((s.take len ++ List.replicate (len - s.length) 0) ++
        dst.drop len).length := by
    simp only [List.length_append, List.length_take, List.length_replicate,
      List.length_drop]
    omega
  rw [List.set_eq_take_cons_drop 0 hlt, Nat.sub_add_cancel hlen]
  have hdropA : (s.take len ++ List.replicate (len - s.length) 0).drop len
      = [] := List.drop_eq_nil_of_le (le_of_eq hA)
  have hdrop : ((s.take len ++ List.replicate (len - s.length) 0) ++
      dst.drop len).drop len = dst.drop len := by
    rw [List.drop_append_eq_append_drop, hdropA, hA]
    simp
  have htake : ((s.take len ++ List.replicate (len - s.length) 0) ++
      dst.drop len).take (len - 1) =
      s.take (len - 1) ++ List.replicate (len - 1 - s.length) 0 := by
    have hsub : len - 1 - len = 0 := by omega
    rw [List.take_append_eq_append_take, hA, hsub, List.take_zero,
      List.append_nil, List.take_append_eq_append_take, List.take_take,
      List.take_replicate, List.length_take]
    have h1 : (len - 1) ⊓ len = len - 1 := by omega
    have h2 : (len - 1 - len ⊓ s.length) ⊓ (len - s.length) =
        len - 1 - s.length := by omega
    rw [h1, h2]
  rw [hdrop, htake]

/-! ### Claim theorems -/

/-- C5: on every exit path of both request operations — success, failed
connect, failed send, failed receive, or daemon-reported error — the
connection state is unconnected when the call returns: starting from the
library's reset state, the socket is back to `-1` and the connected flag
is cleared before any result is surfaced. -/
theorem C5_connection_unconnected_on_return (env : TransportEnv)
    (st0 : ConnState) (msgSize : Nat) (hasFds : Bool) (nbFd : Nat)
    (hasVardata : Bool) (vardataLen : Nat) (hPB hCB hCL : Bool)
    (msgFdCount : Nat) :
    (lttng_ctl_ask_sessiond_fds_varlen env st0 msgSize hasFds nbFd
        hasVardata vardataLen hPB hCB hCL).st.connected = false ∧
    (lttng_ctl_ask_sessiond_payload env st0 msgSize
        msgFdCount).st.connected = false ∧
    (lttng_ctl_ask_sessiond_fds_varlen env ConnState.initial msgSize hasFds
        nbFd hasVardata vardataLen hPB hCB hCL).st = ConnState.initial ∧
    (lttng_ctl_ask_sessiond_payload env ConnState.initial msgSize
        msgFdCount).st = ConnState.initial := by
  refine ⟨disconnect_sessiond_connected _, disconnect_sessiond_connected _,
    ?_, ?_⟩
  · show disconnect_sessiond (askFdsVarlenCore env ConnState.initial msgSize
        hasFds nbFd hasVardata vardataLen hPB hCB hCL).st = ConnState.initial
    rcases askFdsVarlenCore_st env ConnState.initial msgSize hasFds nbFd
        hasVardata vardataLen hPB hCB hCL with h | h <;> rw [h] <;>
      simp [disconnect_sessiond, reset_global_sessiond_connection_state,
        ConnState.initial]
  · show disconnect_sessiond (askPayloadCore env ConnState.initial msgSize
        msgFdCount).st = ConnState.initial
    rcases askPayloadCore_st env ConnState.initial msgSize msgFdCount
        with h | h <;> rw [h] <;>
      simp [disconnect_sessiond, reset_global_sessiond_connection_state,
        ConnState.initial]

/-- C8: the no-wait stop variant never invokes the data-pending check:
whatever results the check would produce, once the stop command itself is
acknowledged (success or the already-stopped condition) the call returns
that acknowledgement with zero checks and zero sleeps. -/
theorem C8_no_wait_skips_poll (name : List Nat) (stopRet : Int)
    (pending : List Int)
    (h : 0 ≤ stopRet ∨
      stopRet = -(LTTNG_ERR_TRACE_ALREADY_STOPPED : Int)) :
    lttng_stop_tracing_no_wait (some name) stopRet pending =
      some ⟨stopRet, 0, 0⟩ := by
  have hgate : ¬(stopRet < 0 ∧
      stopRet ≠ -(LTTNG_ERR_TRACE_ALREADY_STOPPED : Int)) := by
    rcases h with h | h
    · rintro ⟨h1, -⟩; omega
    · rintro ⟨-, h2⟩; exact h2 h
  simp [lttng_stop_tracing_no_wait, lttng_stop_tracing_common, hgate]

/-- Witness for C8 at a concrete input. -/
theorem C8_no_wait_skips_poll_witness :
    lttng_stop_tracing_no_wait (some [97]) 0 [1, 1, 0] = some ⟨0, 0, 0⟩ :=
  C8_no_wait_skips_poll [97] 0 [1, 1, 0] (Or.inl (by decide))

/-- C4: with the stop command acknowledged, a data-pending sequence
{pending, pending, not-pending} performs exactly 3 checks and 2 sleeps
and returns the acknowledgement; a sequence whose 2nd result is a
negative error returns that error immediately after 2 checks and the
single sleep that preceded the 2nd check — no 3rd check, no further
sleep. -/
theorem C4_poller_termination (name : List Nat) (stopRet p1 p2 e : Int)
    (rest : List Int) (hp1 : 0 < p1) (hp2 : 0 < p2) (hs : 0 ≤ stopRet)
    (he : e < 0) :
    lttng_stop_tracing (some name) stopRet [p1, p2, 0] =
      some ⟨stopRet, 3, 2⟩ ∧
    lttng_stop_tracing (some name) stopRet (p1 :: e :: rest) =
      some ⟨e, 2, 1⟩ := by
  have hgate : ¬(stopRet < 0 ∧
      stopRet ≠ -(LTTNG_ERR_TRACE_ALREADY_STOPPED : Int)) := by
    rintro ⟨h1, -⟩; omega
  have h1 : ¬(p1 < 0) := by omega
  have h1' : p1 ≠ 0 := by omega
  have h2 : ¬(p2 < 0) := by omega
  have h2' : p2 ≠ 0 := by omega
  constructor <;>
    simp [lttng_stop_tracing, lttng_stop_tracing_common, dataPendingLoop,
      hgate, h1, h1', h2, h2', he]

/-- Witness for C4 at a concrete input. -/
theorem C4_poller_termination_witness :
    lttng_stop_tracing (some [97]) 0 [1, 1, 0] = some ⟨0, 3, 2⟩ ∧
    lttng_stop_tracing (some [97]) 0 [1, -21, 5] = some ⟨-21, 2, 1⟩ :=
  C4_poller_termination [97] 0 1 1 (-21) [5] (by decide) (by decide)
    (by decide) (by decide)

/-- C7: a listing reply with zero records flattens successfully: the
measure pass computes a required size of 0, both walk loops run zero
iterations, and the caller receives a record count of 0 with no error. -/
theorem C7_empty_listing_flattens (s : FlattenSizes) :
    measurePass s [] = some 0 ∧ flattenPass s [] = some 0 ∧
    lttng_list_events_flatten s true [] = .ok (0, 0) := by
  refine ⟨?_, ?_, ?_⟩ <;>
    simp [measurePass, flattenPass, measurePassFrom, flattenPassFrom,
      lttng_list_events_flatten, INT_MAX]

/-- Rounding up to an alignment boundary never shrinks a size. -/
theorem ALIGN_TO_le (x : Nat) : x ≤ ALIGN_TO x 8 := by
  unfold ALIGN_TO; omega

/-- One measure-pass iteration and one flatten-pass iteration account for
exactly the same number of bytes: the flatten pass's conditional appends
of empty filter/exclusion sections coincide with the measure pass's
unconditional additions of zero. -/
theorem measureStep_eq_flattenStep (s : FlattenSizes) (acc : Nat)
    (r : EventExtComm) : measureStep s acc r = flattenStep s acc r := by
  unfold measureStep flattenStep
  rcases r with ⟨f, nx, pr⟩
  dsimp only
  have h3 : (if nx ≠ 0 then
        (if f ≠ 0 then acc + s.szEventExtended + f
          else acc + s.szEventExtended) + nx * s.symLen
      else
        (if f ≠ 0 then acc + s.szEventExtended + f
          else acc + s.szEventExtended)) =
      acc + s.szEventExtended + f + nx * s.symLen := by
    by_cases hf : f = 0 <;> by_cases hx : nx = 0 <;> simp [hf, hx]
  rw [h3]

/-- The two passes agree from any starting size. -/
theorem measurePassFrom_eq_flattenPassFrom (s : FlattenSizes)
    (l : List EventExtComm) :
    ∀ acc, measurePassFrom s acc l = flattenPassFrom s acc l := by
  induction l with
  | nil => intro acc; rfl
  | cons r rest ih =>
    intro acc
    unfold measurePassFrom flattenPassFrom
    rw [measureStep_eq_flattenStep]
    cases flattenStep s acc r with
    | none => rfl
    | some a => exact ih a

/-- A flatten-pass iteration never decreases the buffer size. -/
theorem flattenStep_le (s : FlattenSizes) (acc : Nat) (r : EventExtComm)
    (a : Nat) (ha : flattenStep s acc r = some a) : acc ≤ a := by
  rcases r with ⟨f, nx, pr⟩
  unfold flattenStep ALIGN_TO at ha
  dsimp only at ha
  rcases pr with _ | ⟨ok, fs⟩
  · simp only [Option.some_inj] at ha
    subst ha
    by_cases hf : f = 0 <;> by_cases hx : nx = 0 <;> simp [hf, hx] <;> omega
  · cases ok with
    | false => simp at ha
    | true =>
      simp only [Bool.not_true, if_neg Bool.false_ne_true,
        Option.some_inj] at ha
      subst ha
      by_cases hf : f = 0 <;> by_cases hx : nx = 0 <;> simp [hf, hx] <;>
        omega

/-- The flatten pass only ever grows the buffer. -/
theorem flattenPassFrom_le (s : FlattenSizes) (l : List EventExtComm) :
    ∀ acc n, flattenPassFrom s acc l = some n → acc ≤ n := by
  induction l with
  | nil =>
    intro acc n h
    simp only [flattenPassFrom, Option.some_inj] at h
    omega
  | cons r rest ih =>
    intro acc n h
    unfold flattenPassFrom at h
    cases hs : flattenStep s acc r with
    | none => rw [hs] at h; exact absurd h (by simp)
    | some a =>
      rw [hs] at h
      exact le_trans (flattenStep_le s acc r a hs) (ih a n h)

/-- The flatten pass over a concatenation is the composition of the
passes over the two parts. -/
theorem flattenPassFrom_append (s : FlattenSizes) (l₁ l₂ : List EventExtComm) :
    ∀ acc, flattenPassFrom s acc (l₁ ++ l₂) =
      match flattenPassFrom s acc l₁ with
      | none => none
      | some a => flattenPassFrom s a l₂ := by
  induction l₁ with
  | nil => intro acc; rfl
  | cons r rest ih =>
    intro acc
    simp only [List.cons_append, flattenPassFrom]
    cases flattenStep s acc r with
    | none => rfl
    | some a => exact ih a

/-- C2: for every listing reply accepted by the flattening engine, the
size computed by the measure pass equals the number of bytes the flatten
pass writes, and every intermediate flatten-pass size (after any prefix
of the records) stays within the measured capacity, so the reserved
buffer is never grown. -/
theorem C2_two_pass_consistency (s : FlattenSizes)
    (records : List EventExtComm) :
    measurePass s records = flattenPass s records ∧
    ∀ pre suf n k, records = pre ++ suf →
      measurePass s records = some n →
      flattenPassFrom s (records.length * s.szEvent) pre = some k →
      k ≤ n := by
  constructor
  · exact measurePassFrom_eq_flattenPassFrom s records _
  · intro pre suf n k hsplit hm hk
    unfold measurePass at hm
    rw [measurePassFrom_eq_flattenPassFrom] at hm
    rw [hsplit, flattenPassFrom_append] at hm
    rw [hsplit] at hk
    rw [hk] at hm
    exact flattenPassFrom_le s suf k n hm

/-- Witness for C2 at a concrete reply: two records, the first with a
12-byte filter and 2 exclusions, the second with a nested probe whose
flattened form needs 24 bytes. -/
theorem C2_two_pass_consistency_witness :
    measurePass ⟨288, 64, 256⟩ [⟨12, 2, none⟩, ⟨0, 0, some (true, 24)⟩] =
      flattenPass ⟨288, 64, 256⟩
        [⟨12, 2, none⟩, ⟨0, 0, some (true, 24)⟩] ∧
    (1168 : Nat) ≤ 1256 :=
  ⟨(C2_two_pass_consistency ⟨288, 64, 256⟩
      [⟨12, 2, none⟩, ⟨0, 0, some (true, 24)⟩]).1,
   (C2_two_pass_consistency ⟨288, 64, 256⟩
      [⟨12, 2, none⟩, ⟨0, 0, some (true, 24)⟩]).2
     [⟨12, 2, none⟩] [⟨0, 0, some (true, 24)⟩] 1256 1168 rfl (by decide)
     (by decide)⟩

/-- C10: a session- or channel-listing reply whose positive data-section
byte count is not a multiple of the combined fixed-plus-extended record
size is rejected: the received buffer is freed, the caller's output
pointer is set to null and `-LTTNG_ERR_UNK` is returned. -/
theorem C10_misaligned_listing_rejected (sessionSize channelSize : Nat)
    (askRet : Int) (h0 : 0 < askRet)
    (hs : askRet.toNat % sessionSize ≠ 0)
    (hc : askRet.toNat % channelSize ≠ 0) :
    lttng_list_sessions_tail sessionSize askRet true =
      (-(LTTNG_ERR_UNK : Int), .setNull, true) ∧
    lttng_list_channels_tail channelSize askRet =
      (-(LTTNG_ERR_UNK : Int), .setNull, true) := by
  have hle : ¬(askRet ≤ 0) := by omega
  have hlt : ¬(askRet < 0) := by omega
  constructor
  · simp [lttng_list_sessions_tail, hle, hs]
  · simp [lttng_list_channels_tail, hlt, hc]

/-- Witness for C10: a 25-byte data section against 24-byte records. -/
theorem C10_misaligned_listing_rejected_witness :
    lttng_list_sessions_tail 24 25 true =
      (-(LTTNG_ERR_UNK : Int), .setNull, true) ∧
    lttng_list_channels_tail 24 25 =
      (-(LTTNG_ERR_UNK : Int), .setNull, true) :=
  C10_misaligned_listing_rejected 24 24 25 (by decide) (by decide)
    (by decide)

/-- C6: a missing mandatory argument (null session name for
start-tracing, null handle or context for add-context) fails locally
with `-LTTNG_ERR_INVALID`: no connection is attempted, no section is
read, and the connection state is untouched. -/
theorem C6_local_validation_no_io (env : TransportEnv) (st0 : ConnState)
    (handle : Option Unit) (ctx : Option EventContextModel)
    (hnull : handle = none ∨ ctx = none) :
    lttng_start_tracing env st0 none =
      ⟨-(LTTNG_ERR_INVALID : Int), st0, 0, 0⟩ ∧
    lttng_add_context env st0 handle ctx =
      ⟨-(LTTNG_ERR_INVALID : Int), st0, 0, 0⟩ := by
  refine ⟨rfl, ?_⟩
  rcases hnull with h | h
  · subst h; cases ctx <;> rfl
  · subst h; cases handle <;> rfl

/-- Witness for C6 at concrete inputs. -/
theorem C6_local_validation_no_io_witness :
    lttng_start_tracing ⟨3, true, true, true, true, ⟨10, 0, 0, 0⟩, true,
        true, true, true⟩ ConnState.initial none =
      ⟨-(LTTNG_ERR_INVALID : Int), ConnState.initial, 0, 0⟩ ∧
    lttng_add_context ⟨3, true, true, true, true, ⟨10, 0, 0, 0⟩, true,
        true, true, true⟩ ConnState.initial (some ()) none =
      ⟨-(LTTNG_ERR_INVALID : Int), ConnState.initial, 0, 0⟩ :=
  C6_local_validation_no_io _ ConnState.initial (some ()) none (Or.inr rfl)

/-- C1 counterexample: with a successful connect, sends and header
receive, a reply header reporting success with a 16-byte command header
and a 32-byte data section, a successful command-header receive and a
failed data receive, the fixed-header path returns a negative error
while the command-header buffer remains owned by the caller — refuting
the claim that a negative return hands no buffer to the caller. -/
theorem C1_counterexample_cmd_header_retained :
    (lttng_ctl_ask_sessiond_fds_varlen
        ⟨3, true, true, true, true, ⟨10, 16, 32, 0⟩, true, false, true,
          true⟩ ConnState.initial szLsm false 0 false 0 true true
        true).ret < 0 ∧
    (lttng_ctl_ask_sessiond_fds_varlen
        ⟨3, true, true, true, true, ⟨10, 16, 32, 0⟩, true, false, true,
          true⟩ ConnState.initial szLsm false 0 false 0 true true
        true).cmdHeader = .setOwned 16 := by
  decide

/-- C1 (amended): on a failed call, the fixed-header path never sets the
caller's payload output pointer and the payload path records no
descriptor in the caller's reply; however, the command-header buffer is
not revoked — when the data-section receive fails after the
command-header section was received, the call returns a negative error
and the command-header buffer remains owned by the caller. -/
theorem C1_no_ownership_on_failure_amended (env : TransportEnv)
    (st0 : ConnState) (msgSize : Nat) (hasFds : Bool) (nbFd : Nat)
    (hasVardata : Bool) (vardataLen : Nat) (hPB hCB hCL : Bool)
    (msgFdCount : Nat) :
    ((lttng_ctl_ask_sessiond_fds_varlen env st0 msgSize hasFds nbFd
        hasVardata vardataLen hPB hCB hCL).ret < 0 →
      (lttng_ctl_ask_sessiond_fds_varlen env st0 msgSize hasFds nbFd
        hasVardata vardataLen hPB hCB hCL).payload = .untouched) ∧
    ((lttng_ctl_ask_sessiond_payload env st0 msgSize msgFdCount).ret < 0 →
      (lttng_ctl_ask_sessiond_payload env st0 msgSize
        msgFdCount).replyFdCount = 0) ∧
    (0 ≤ env.connectResult → env.sendMsgOk = true →
      env.sendVarlenOk = true → env.sendFdsOk = true →
      env.recvHeaderOk = true → env.header.ret_code = LTTNG_OK →
      env.mallocOk = true → env.recvCmdHeaderOk = true →
      env.recvDataOk = false → env.header.cmd_header_size ≠ 0 →
      env.header.data_size ≠ 0 → hCB = true → hCL = true →
      (lttng_ctl_ask_sessiond_fds_varlen env st0 msgSize hasFds nbFd
        hasVardata vardataLen hPB hCB hCL).ret < 0 ∧
      (lttng_ctl_ask_sessiond_fds_varlen env st0 msgSize hasFds nbFd
        hasVardata vardataLen hPB hCB hCL).cmdHeader =
        .setOwned env.header.cmd_header_size) := by
  refine ⟨?_, ?_, ?_⟩
  · intro h
    unfold lttng_ctl_ask_sessiond_fds_varlen askFdsVarlenCore at h ⊢
    by_cases hc : env.connectResult < 0
    · rw [if_pos hc]
    · rw [if_neg hc] at h ⊢
      exact askFdsVarlenBody_fail_payload env ⟨env.connectResult, true⟩
        msgSize hasFds nbFd hasVardata vardataLen hPB hCB hCL h
  · intro h
    unfold lttng_ctl_ask_sessiond_payload askPayloadCore at h ⊢
    by_cases hc : env.connectResult < 0
    · rw [if_pos hc]
    · rw [if_neg hc] at h ⊢
      exact askPayloadBody_fail_fds env ⟨env.connectResult, true⟩
        msgFdCount h
  · intro hcr hsm hsv hsf hrh hok hmo hrcv hrd hch hd hcb hcl
    have hA : ¬(send_session_msg true ⟨env.connectResult, true⟩
        msgSize < 0) := by
      rw [send_session_msg_ok _ msgSize rfl]
      omega
    have hB : ¬(send_session_varlen true ⟨env.connectResult, true⟩
        hasVardata vardataLen < 0) :=
      not_lt.mpr (send_session_varlen_ok_nonneg _ hasVardata vardataLen rfl)
    have hC : ¬(send_session_fds true ⟨env.connectResult, true⟩
        hasFds nbFd < 0) :=
      not_lt.mpr (send_session_fds_ok_nonneg _ hasFds nbFd rfl)
    have hD : ¬(recv_data_sessiond true ⟨env.connectResult, true⟩
        szLlm < 0) := by
      rw [recv_data_sessiond_ok _ szLlm rfl]
      omega
    have hE : ¬(env.header.ret_code ≠ LTTNG_OK) := by simp [hok]
    have hF : ¬((env.header.cmd_header_size : Int) < 0) := by omega
    have hG : -(LTTNG_ERR_FATAL : Int) < 0 := by decide
    have hbody : askFdsVarlenBody env ⟨env.connectResult, true⟩ msgSize
        hasFds nbFd hasVardata vardataLen hPB hCB hCL =
        (-(LTTNG_ERR_FATAL : Int), .setOwned env.header.cmd_header_size,
          some env.header.cmd_header_size, .untouched, 2) := by
      unfold askFdsVarlenBody
      rw [hsm, hsv, hsf, hrh, hcb, hcl, hrcv, hrd, hmo]
      dsimp only
      rw [if_neg hA, if_neg hB, if_neg hC, if_neg hD, if_neg hE,
        recv_sessiond_optional_data_ok ⟨env.connectResult, true⟩
          env.header.cmd_header_size rfl hch]
      dsimp only
      rw [if_neg hF,
        recv_sessiond_optional_data_recv_fail ⟨env.connectResult, true⟩
          env.header.data_size hPB rfl hd]
      dsimp only
      rw [if_pos hG]
      norm_num
    have hne : ¬(env.connectResult < 0) := by omega
    unfold lttng_ctl_ask_sessiond_fds_varlen askFdsVarlenCore
    rw [if_neg hne]
    dsimp only
    rw [hbody]
    exact ⟨hG, rfl⟩

/-- Witness for the amended C1 at a concrete input: command-header
section of 16 bytes received, data section of 32 bytes whose receive
fails. -/
theorem C1_no_ownership_on_failure_amended_witness :
    (lttng_ctl_ask_sessiond_fds_varlen
        ⟨3, true, true, true, true, ⟨10, 16, 32, 0⟩, true, false, true,
          true⟩ ConnState.initial szLsm true 1 true 4 true true
        true).ret < 0 ∧
    (lttng_ctl_ask_sessiond_fds_varlen
        ⟨3, true, true, true, true, ⟨10, 16, 32, 0⟩, true, false, true,
          true⟩ ConnState.initial szLsm true 1 true 4 true true
        true).cmdHeader = .setOwned 16 :=
  (C1_no_ownership_on_failure_amended
      ⟨3, true, true, true, true, ⟨10, 16, 32, 0⟩, true, false, true,
        true⟩ ConnState.initial szLsm true 1 true 4 true true true 0).2.2
    (by decide) rfl rfl rfl rfl rfl rfl rfl rfl (by decide) (by decide)
    rfl rfl

/-- C3: when a reply's fixed header carries a result code different from
success, both request paths return the negation of that code and read no
command-header, data or descriptor section, regardless of the section
lengths and descriptor count the header declares: the fixed-header path
leaves both caller output pointers untouched, and the payload path stores
no descriptor in the reply. -/
theorem C3_header_gating (env : TransportEnv) (st0 : ConnState)
    (msgSize : Nat) (hasFds : Bool) (nbFd : Nat) (hasVardata : Bool)
    (vardataLen : Nat) (hPB hCB hCL : Bool) (msgFdCount : Nat)
    (hcr : 0 ≤ env.connectResult) (hsm : env.sendMsgOk = true)
    (hsv : env.sendVarlenOk = true) (hsf : env.sendFdsOk = true)
    (hrh : env.recvHeaderOk = true) (hmo : env.mallocOk = true)
    (hrc : env.header.ret_code ≠ LTTNG_OK) :
    (lttng_ctl_ask_sessiond_fds_varlen env st0 msgSize hasFds nbFd
        hasVardata vardataLen hPB hCB hCL).ret =
      -(env.header.ret_code : Int) ∧
    (lttng_ctl_ask_sessiond_fds_varlen env st0 msgSize hasFds nbFd
        hasVardata vardataLen hPB hCB hCL).sectionRecvs = 0 ∧
    (lttng_ctl_ask_sessiond_fds_varlen env st0 msgSize hasFds nbFd
        hasVardata vardataLen hPB hCB hCL).cmdHeader = .untouched ∧
    (lttng_ctl_ask_sessiond_fds_varlen env st0 msgSize hasFds nbFd
        hasVardata vardataLen hPB hCB hCL).payload = .untouched ∧
    (lttng_ctl_ask_sessiond_payload env st0 msgSize msgFdCount).ret =
      -(env.header.ret_code : Int) ∧
    (lttng_ctl_ask_sessiond_payload env st0 msgSize
        msgFdCount).sectionRecvs = 0 ∧
    (lttng_ctl_ask_sessiond_payload env st0 msgSize
        msgFdCount).replyFdCount = 0 := by
  have hb := askFdsVarlenBody_gate env ⟨env.connectResult, true⟩ msgSize
    hasFds nbFd hasVardata vardataLen hPB hCB hCL rfl hsm hsv hsf hrh hrc
  have hp := askPayloadBody_gate env ⟨env.connectResult, true⟩ msgFdCount
    rfl hsm hsf hrh hmo hrc
  have hne : ¬(env.connectResult < 0) := by omega
  unfold lttng_ctl_ask_sessiond_fds_varlen askFdsVarlenCore
    lttng_ctl_ask_sessiond_payload askPayloadCore
  rw [if_neg hne, if_neg hne]
  dsimp only
  rw [hb, hp]
  exact ⟨rfl, rfl, rfl, rfl, rfl, rfl, rfl⟩

/-- Witness for C3: a header reporting code 11 while declaring a 5-byte
command header, a 7-byte data section and 2 descriptors. -/
theorem C3_header_gating_witness :
    (lttng_ctl_ask_sessiond_fds_varlen ⟨3, true, true, true, true,
        ⟨11, 5, 7, 2⟩, true, true, true, true⟩ ConnState.initial szLsm
        true 1 true 4 true true true).ret = -((11 : Nat) : Int) ∧
    (lttng_ctl_ask_sessiond_fds_varlen ⟨3, true, true, true, true,
        ⟨11, 5, 7, 2⟩, true, true, true, true⟩ ConnState.initial szLsm
        true 1 true 4 true true true).sectionRecvs = 0 ∧
    (lttng_ctl_ask_sessiond_fds_varlen ⟨3, true, true, true, true,
        ⟨11, 5, 7, 2⟩, true, true, true, true⟩ ConnState.initial szLsm
        true 1 true 4 true true true).cmdHeader = .untouched ∧
    (lttng_ctl_ask_sessiond_fds_varlen ⟨3, true, true, true, true,
        ⟨11, 5, 7, 2⟩, true, true, true, true⟩ ConnState.initial szLsm
        true 1 true 4 true true true).payload = .untouched ∧
    (lttng_ctl_ask_sessiond_payload ⟨3, true, true, true, true,
        ⟨11, 5, 7, 2⟩, true, true, true, true⟩ ConnState.initial szLsm
        2).ret = -((11 : Nat) : Int) ∧
    (lttng_ctl_ask_sessiond_payload ⟨3, true, true, true, true,
        ⟨11, 5, 7, 2⟩, true, true, true, true⟩ ConnState.initial szLsm
        2).sectionRecvs = 0 ∧
    (lttng_ctl_ask_sessiond_payload ⟨3, true, true, true, true,
        ⟨11, 5, 7, 2⟩, true, true, true, true⟩ ConnState.initial szLsm
        2).replyFdCount = 0 :=
  C3_header_gating ⟨3, true, true, true, true, ⟨11, 5, 7, 2⟩, true, true,
      true, true⟩ ConnState.initial szLsm true 1 true 4 true true true 2
    (by decide) rfl rfl rfl rfl rfl (by decide)

/-- C9: for a destination buffer of `len ≥ 1` bytes, the string-copy
helper writes at most the first `len` bytes of the destination and
leaves it NUL-terminated: with a non-null source the destination's C
string is at most the first `len - 1` source characters and byte
`len - 1` is NUL; with a null source the destination becomes the empty
string. -/
theorem C9_copy_string_safe (dst s : List Nat) (len : Nat)
    (hlen : 1 ≤ len) (hdst : len ≤ dst.length) (hs : ∀ x ∈ s, x ≠ 0) :
    (lttng_ctl_copy_string dst (some s) len).length = dst.length ∧
    (lttng_ctl_copy_string dst (some s) len).drop len = dst.drop len ∧
    cString (lttng_ctl_copy_string dst (some s) len) = s.take (len - 1) ∧
    (lttng_ctl_copy_string dst (some s) len)[len - 1]? = some 0 ∧
    lttng_ctl_copy_string dst none len = dst.set 0 0 ∧
    cString (lttng_ctl_copy_string dst none len) = [] := by
  have key := lttng_ctl_copy_string_eq dst s len hlen hdst
  have hB : (s.take (len - 1) ++
      List.replicate (len - 1 - s.length) 0).length = len - 1 := by
    simp only [List.length_append, List.length_take, List.length_replicate]
    omega
  refine ⟨?_, ?_, ?_, ?_, rfl, ?_⟩
  · rw [key]
    simp only [List.length_append, List.length_cons, List.length_take,
      List.length_replicate, List.length_drop]
    omega
  · rw [key, List.drop_append_eq_append_drop,
      List.drop_eq_nil_of_le (by rw [hB]; omega), hB]
    have h1 : len - (len - 1) = 1 := by omega
    rw [h1]
    simp
  · rw [key, List.append_assoc]
    refine cString_append_zero _ _
      (fun x hx => hs x (List.take_subset _ _ hx)) ?_
    cases hk : len - 1 - s.length with
    | zero => simp
    | succ k => simp [List.replicate_succ]
  · rw [key, List.getElem?_append_right (le_of_eq hB), hB]
    simp
  · have h2 : 1 ≤ dst.length := le_trans hlen hdst
    cases dst with
    | nil => simp at h2
    | cons d t => simp [lttng_ctl_copy_string, cString]

/-- Witness for C9: a 3-character source copied into a 5-byte buffer
with `len = 4`. -/
theorem C9_copy_string_safe_witness :
    (lttng_ctl_copy_string [7, 7, 7, 7, 7] (some [65, 66, 67]) 4).length
      = 5 ∧
    (lttng_ctl_copy_string [7, 7, 7, 7, 7] (some [65, 66, 67]) 4).drop 4
      = [7] ∧
    cString (lttng_ctl_copy_string [7, 7, 7, 7, 7] (some [65, 66, 67]) 4)
      = [65, 66, 67] ∧
    (lttng_ctl_copy_string [7, 7, 7, 7, 7] (some [65, 66, 67]) 4)[3]? =
      some 0 ∧
    lttng_ctl_copy_string [7, 7, 7, 7, 7] none 4 = [0, 7, 7, 7, 7] ∧
    cString (lttng_ctl_copy_string [7, 7, 7, 7, 7] none 4) = [] :=
  C9_copy_string_safe [7, 7, 7, 7, 7] [65, 66, 67] 4 (by decide)
    (by decide) (by decide)

end LttngCtl
